import Mathlib

/-!
Verification development for the SAM.gov API notifier's change-detection and
notification-routing core.

The Go sources are shallowly embedded as executable Lean definitions:

* Timestamps (`time.Time`) are modelled as `Int` (a point on a linear time
  line); durations (`time.Duration`) also as `Int` in the same unit.
  Calendar-day arithmetic (`AddDate(0,0,n)`) is modelled as adding
  `n * secondsPerDay`, a fixed-length day.
* SHA-256 hex digests are modelled by the canonical sequence of fields that
  the code feeds (joined with the `"|"` delimiter) into the hash: the code
  relies only on digest equality coinciding with equality of the delimited
  field sequence (collision freedom plus the unambiguous delimiter), so the
  digest is represented as the field list itself (`Digest := List String`)
  and `sha256Hex` is the injective map keeping that list.
* External collaborators (the HTTP search call, `encoding/json` parsing,
  `time.Parse`, channel `Send` implementations) are passed in as function
  parameters, exactly at the boundary where the Go code calls them.
* Go structs keep only the fields that the embedded functions read; maps
  keyed by strings become association lists with Go-map lookup/replace
  semantics.
-/

namespace SamGov

/-- A point in time (`time.Time`), as an integer on a linear time line. -/
abbrev Time := Int

/-- A duration (`time.Duration`), in the same unit as `Time`. -/
abbrev Duration := Int

/-- Fixed length of one day, used to model `AddDate(0, 0, n)`. -/
def secondsPerDay : Int := 86400

/-- `t.AddDate(0, 0, days)`, modelled with fixed-length days. -/
def addDays (t : Time) (days : Int) : Time := t + days * secondsPerDay

/-- A SHA-256 hex digest, modelled as the canonical field sequence that is
hashed (see the module comment). -/
abbrev Digest := List String

/-- Models `fmt.Sprintf("%x", sha256.Sum256([]byte(content)))` where `content`
is the `"|"`-joined field list: kept as the field list itself, since the code
only compares digests for equality. -/
def sha256Hex (fields : List String) : Digest := fields

/-- `samgov.Opportunity` (types.go); only the fields read by the embedded
functions are carried. -/
structure Opportunity where
  noticeID : String
  title : String
  postedDate : String
  type : String
  responseDeadline : Option String
  description : String
  typeOfSetAside : String
  naicsCode : String
deriving DecidableEq, Repr, Inhabited

/-- `samgov.OpportunityState` (types.go). -/
structure OpportunityState where
  firstSeen : Time
  lastSeen : Time
  lastModified : Time
  noticeID : String
  title : String
  deadline : Option String
  hash : Digest
deriving DecidableEq, Repr, Inhabited

/-- Go-map read: first binding for the key, if any. -/
def assocGet {β : Type} : List (String × β) → String → Option β
  | [], _ => none
  | (k', v') :: rest, k => if k' = k then some v' else assocGet rest k

/-- Go-map write: replace the binding for the key, or append a fresh one. -/
def assocSet {β : Type} : List (String × β) → String → β → List (String × β)
  | [], k, v => [(k, v)]
  | (k', v') :: rest, k, v =>
      if k' = k then (k, v) :: rest else (k', v') :: assocSet rest k v

/-- `monitor.State` (state file, src/unnamed/part_002): the persistent store.
`QueryMetrics`, `LastRun` and the file path are not read by the embedded
operations and are omitted. -/
structure State where
  opportunities : List (String × OpportunityState)
  modified : Bool
deriving DecidableEq, Repr, Inhabited

/-- A freshly created empty store. -/
def emptyState : State := { opportunities := [], modified := false }

/-- `(s *State) GetOpportunity` (part_002). -/
def State.GetOpportunity (s : State) (noticeID : String) : Option OpportunityState :=
  assocGet s.opportunities noticeID

/-- Helper of `calculateOpportunityHash` and `calculateContentHash`: the
string the Go code substitutes for an optional deadline. -/
def deadlineString : Option String → String
  | some d => d
  | none => ""

/-- `(s *State) calculateOpportunityHash` (part_002:721-738): hash over
NoticeID, Title, PostedDate, Type and ResponseDeadline. -/
def calculateOpportunityHash (opp : Opportunity) : Digest :=
  sha256Hex [opp.noticeID, opp.title, opp.postedDate, opp.type,
             deadlineString opp.responseDeadline]

/-- `(s *State) AddOpportunity` (part_002:545-578): the upsert. Returns
whether the call created a new entry, together with the updated store.
`time.Now()` is passed in as `now`. -/
def State.AddOpportunity (s : State) (opp : Opportunity) (now : Time) : Bool × State :=
  let hash := calculateOpportunityHash opp
  match assocGet s.opportunities opp.noticeID with
  | some existing =>
      let existing1 := { existing with lastSeen := now }
      let existing2 :=
        if existing1.hash ≠ hash then
          { existing1 with lastModified := now, hash := hash,
                           title := opp.title, deadline := opp.responseDeadline }
        else existing1
      (false, { s with opportunities := assocSet s.opportunities opp.noticeID existing2,
                       modified := true })
  | none =>
      (true, { s with
                 opportunities := assocSet s.opportunities opp.noticeID
                   { firstSeen := now, lastSeen := now, lastModified := now,
                     noticeID := opp.noticeID, title := opp.title,
                     deadline := opp.responseDeadline, hash := hash },
                 modified := true })

/-- `LoadState`'s view of the state file: missing, unreadable, or raw bytes. -/
inductive FileRead : Type
  | missing
  | readFailure (msg : String)
  | content (data : String)
deriving DecidableEq, Repr

/-- `LoadState` (part_002:455-503). `parse` models `json.Unmarshal`
(external stdlib): `none` is a parse error. The directory-creation step and
nil-map re-initialisation (both I/O or Go-nil plumbing) have no observable
effect on the returned store and are omitted. -/
def LoadState (file : FileRead) (parse : String → Option State) : Except String State :=
  match file with
  | .missing => .ok emptyState
  | .readFailure msg => .error ("reading state file: " ++ msg)
  | .content data =>
      match parse data with
      | none => .ok emptyState
      | some st => .ok st

/-- `(s *State) CleanupOldOpportunities` (part_002:651-670). -/
def State.CleanupOldOpportunities (s : State) (maxAge : Duration) (now : Time) :
    Nat × State :=
  let cutoff := now - maxAge
  let kept := s.opportunities.filter (fun p => !(decide (p.2.lastSeen < cutoff)))
  let removed := s.opportunities.length - kept.length
  (removed, { s with opportunities := kept,
                     modified := if removed > 0 then true else s.modified })

end SamGov

namespace Differ

open SamGov

/-- `samgov.DiffResult` (types.go). -/
structure DiffResult where
  new : List Opportunity
  updated : List Opportunity
  existing : List Opportunity
deriving DecidableEq, Repr, Inhabited

/-- The first 500 bytes of the trimmed description
(`strings.TrimSpace` + `desc[:500]`), modelled at character granularity. -/
def truncateDescription (s : String) : String :=
  let t := s.trim
  if t.length > 500 then t.take 500 else t

/-- `(d *OpportunityDiffer) calculateContentHash` (part_003:138-165): hash
over NoticeID, Title, PostedDate, Type, TypeOfSetAside, NAICSCode,
ResponseDeadline and the truncated description. -/
def calculateContentHash (opp : Opportunity) : Digest :=
  sha256Hex [opp.noticeID, opp.title, opp.postedDate, opp.type,
             opp.typeOfSetAside, opp.naicsCode,
             deadlineString opp.responseDeadline,
             truncateDescription opp.description]

/-- `(d *OpportunityDiffer) detectChanges` (part_003:102-135). -/
def detectChanges (previous : OpportunityState) (current : Opportunity) :
    List String :=
  let changes : List String := []
  let changes := if previous.title ≠ current.title then changes ++ ["title"] else changes
  let prevDeadline := deadlineString previous.deadline
  let currentDeadline := deadlineString current.responseDeadline
  let changes := if prevDeadline ≠ currentDeadline then changes ++ ["deadline"] else changes
  let currentHash := calculateContentHash current
  if previous.hash ≠ currentHash ∧ changes = [] then changes ++ ["content"] else changes

/-- The three classification outcomes of `classifyOpportunity`. -/
inductive Classification : Type
  | new
  | updated
  | existing
deriving DecidableEq, Repr

/-- `(d *OpportunityDiffer) classifyOpportunity` (part_003:78-99). -/
def classifyOpportunity (current : Opportunity) (state : State) : Classification :=
  match state.GetOpportunity current.noticeID with
  | none => .new
  | some previous =>
      if (detectChanges previous current).length > 0 then .updated else .existing

/-- `(d *OpportunityDiffer) DiffOpportunities` (part_003:26-68). The Go loop
appends each record to the tail of one result list; the structural recursion
below produces the same three lists in the same order. -/
def DiffOpportunities (current : List Opportunity) (state : State) : DiffResult :=
  match current with
  | [] => { new := [], updated := [], existing := [] }
  | opp :: rest =>
      let r := DiffOpportunities rest state
      match classifyOpportunity opp state with
      | .new => { r with new := opp :: r.new }
      | .updated => { r with updated := opp :: r.updated }
      | .existing => { r with existing := opp :: r.existing }

/-- `(m *Monitor) hasOpportunityChanged` (monitor.go:365-371). -/
def hasOpportunityChanged (previous : OpportunityState) (current : Opportunity) : Bool :=
  previous.title ≠ current.title ||
  (previous.deadline.isNone && current.responseDeadline.isSome) ||
  (previous.deadline.isSome && current.responseDeadline.isNone) ||
  (match previous.deadline, current.responseDeadline with
   | some p, some c => p ≠ c
   | _, _ => false)

/-- `(m *Monitor) diffOpportunities` (monitor.go:342-362), with the same
loop-to-recursion translation as `DiffOpportunities`. -/
def monitorDiffOpportunities (current : List Opportunity) (state : State) : DiffResult :=
  match current with
  | [] => { new := [], updated := [], existing := [] }
  | opp :: rest =>
      let r := monitorDiffOpportunities rest state
      match state.GetOpportunity opp.noticeID with
      | some previous =>
          if hasOpportunityChanged previous opp then { r with updated := opp :: r.updated }
          else { r with existing := opp :: r.existing }
      | none => { r with new := opp :: r.new }

end Differ

namespace Notify

open SamGov

/-- `notify.Priority` (interface.go): a string-typed priority level. -/
abbrev Priority := String

/-- `notify.PriorityHigh`. -/
def PriorityHigh : Priority := "high"

/-- `notify.PriorityMedium`. -/
def PriorityMedium : Priority := "medium"

/-- `notify.PriorityLow`. -/
def PriorityLow : Priority := "low"

/-- `notify.NotificationSummary` (interface.go); `TotalValue` and
`FilteredOpportunities` are never read by the embedded functions. -/
structure NotificationSummary where
  newOpportunities : Nat
  updatedOpportunities : Nat
  upcomingDeadlines : Nat
deriving DecidableEq, Repr, Inhabited

/-- `notify.Notification` (interface.go); only the fields read by the
embedded functions (validation, digesting, dispatch) are carried. -/
structure Notification where
  queryName : String
  priority : Priority
  subject : String
  opportunities : List Opportunity
  summary : NotificationSummary
deriving DecidableEq, Repr, Inhabited

/-- `notify.ValidationError` (interface.go). -/
structure ValidationError where
  field : String
  message : String
deriving DecidableEq, Repr

/-- `ValidateNotification` (interface.go:299-317). -/
def ValidateNotification (notification : Notification) : Option ValidationError :=
  if notification.queryName = "" then
    some { field := "QueryName", message := "query name is required" }
  else if notification.subject = "" then
    some { field := "Subject", message := "subject is required" }
  else if notification.opportunities.length = 0 then
    some { field := "Opportunities", message := "at least one opportunity is required" }
  else if notification.priority ≠ PriorityHigh ∧ notification.priority ≠ PriorityMedium ∧
          notification.priority ≠ PriorityLow then
    some { field := "Priority", message := "invalid priority level" }
  else
    none

/-- A channel collaborator's `Send` (the `Notifier` interface): returns the
delivery error, if any. -/
abbrev Notifier := Notification → Option String

/-- `NotificationConfig` (interface.go), reduced to the `Enabled` flags that
`NewNotificationManager` branches on. -/
structure NotificationConfig where
  emailEnabled : Bool
  slackEnabled : Bool
  githubEnabled : Bool
deriving DecidableEq, Repr

/-- `NewNotificationManager` (interface.go:111-140): the list of channel
notifiers built from the config; the concrete channel `Send` functions are
external collaborators passed in. -/
def NewNotificationManager (config : NotificationConfig)
    (emailSend slackSend githubSend : Notifier) : List Notifier :=
  (if config.emailEnabled then [emailSend] else []) ++
  (if config.slackEnabled then [slackSend] else []) ++
  (if config.githubEnabled then [githubSend] else [])

/-- Outcome of `(nm *NotificationManager) SendNotification`: `nil`, or a
`MultiNotificationError` carrying the per-channel errors. -/
inductive SendOutcome : Type
  | ok
  | multiErr (errors : List String)
deriving DecidableEq, Repr

/-- `(nm *NotificationManager) SendNotification` (interface.go:143-176).
Returns the outcome together with the number of channel `Send` invocations
made (the concurrent fan-out collects every channel's result). -/
def SendNotification (notifiers : List Notifier) (notification : Notification) :
    SendOutcome × Nat :=
  if notifiers.length = 0 then (.ok, 0)
  else
    let errors := (notifiers.map (fun send => send notification)).filterMap id
    (if errors.length > 0 then .multiErr errors else .ok, notifiers.length)

/-- `notify.PendingNotification` (digest.go). -/
structure PendingNotification where
  notification : Notification
  queryName : String
  priority : Priority
  createdAt : Time
deriving DecidableEq, Repr, Inhabited

/-- `(dm *DigestManager) AddNotification` (digest.go:36-50), with
`time.Now()` passed in as `now`; the digest queue is the state. -/
def AddNotification (queue : List PendingNotification) (notification : Notification)
    (now : Time) : List PendingNotification :=
  queue ++ [{ notification := notification, queryName := notification.queryName,
              priority := notification.priority, createdAt := now }]

/-- `(dm *DigestManager) hasUrgentDeadlines` (digest.go:212-231). `parseDate`
models `time.Parse("2006-01-02", ...)` (external stdlib): `none` is a parse
error, which skips the opportunity. -/
def hasUrgentDeadlines (parseDate : String → Option Time) (now : Time)
    (opportunities : List Opportunity) : Bool :=
  let urgentCutoff := addDays now 3
  opportunities.any (fun opp =>
    match opp.responseDeadline with
    | none => false
    | some d =>
        match parseDate d with
        | none => false
        | some deadline => decide (deadline < urgentCutoff) && decide (now < deadline))

/-- `(dm *DigestManager) countUpcomingDeadlines` (digest.go:234-254). -/
def countUpcomingDeadlines (parseDate : String → Option Time) (now : Time)
    (opportunities : List Opportunity) : Nat :=
  let cutoff := addDays now 30
  (opportunities.filter (fun opp =>
    match opp.responseDeadline with
    | none => false
    | some d =>
        match parseDate d with
        | none => false
        | some deadline => decide (now < deadline) && decide (deadline < cutoff))).length

/-- `(dm *DigestManager) ShouldSendImmediately` (digest.go:53-70). -/
def ShouldSendImmediately (parseDate : String → Option Time) (now : Time)
    (notification : Notification) : Bool :=
  if notification.priority = PriorityHigh then true
  else if hasUrgentDeadlines parseDate now notification.opportunities then true
  else if notification.opportunities.length ≥ 10 then true
  else false

/-- `(dm *DigestManager) GetOldestPending` (digest.go:278-291). -/
def GetOldestPending (queue : List PendingNotification) : Option Time :=
  match queue with
  | [] => none
  | p :: rest =>
      some (rest.foldl (fun oldest q => if q.createdAt < oldest then q.createdAt else oldest)
        p.createdAt)

/-- `(dm *DigestManager) ShouldProcessDigest` (digest.go:294-305), with
`time.Since(*oldest) = now - oldest`. -/
def ShouldProcessDigest (queue : List PendingNotification) (maxAge : Duration)
    (now : Time) : Bool :=
  if queue.length = 0 then false
  else
    match GetOldestPending queue with
    | none => false
    | some oldest => decide (now - oldest ≥ maxAge)

/-- Accumulate the distinct elements of a list in first-occurrence order
(set of keys of the Go `groups` map; Go map iteration order is arbitrary, so
any deterministic order is a valid refinement). -/
def distinctKeys (l : List String) : List String :=
  l.foldl (fun acc k => if k ∈ acc then acc else acc ++ [k]) []

/-- Insertion sort of pending notifications by `CreatedAt` (the
`sort.Slice(..., CreatedAt.Before)` call in `groupNotifications`). -/
def insertByCreatedAt (p : PendingNotification) :
    List PendingNotification → List PendingNotification
  | [] => [p]
  | q :: rest =>
      if p.createdAt < q.createdAt then p :: q :: rest else q :: insertByCreatedAt p rest

/-- See `insertByCreatedAt`. -/
def sortByCreatedAt (l : List PendingNotification) : List PendingNotification :=
  l.foldr insertByCreatedAt []

/-- The `groupKey` of a pending notification (`"%s-priority"`). -/
def groupKey (p : PendingNotification) : String := p.priority ++ "-priority"

/-- `(dm *DigestManager) groupNotifications` (digest.go:108-130): the groups
as a list of (key, members) pairs, keys in first-occurrence order. -/
def groupNotifications (queue : List PendingNotification) :
    List (String × List PendingNotification) :=
  (distinctKeys (queue.map groupKey)).map
    (fun k => (k, sortByCreatedAt (queue.filter (fun p => groupKey p = k))))

/-- Insertion sort of strings (`sort.Strings` in `createDigestNotification`). -/
def insertString (s : String) : List String → List String
  | [] => [s]
  | t :: rest => if s < t then s :: t :: rest else t :: insertString s rest

/-- See `insertString`. -/
def sortStrings (l : List String) : List String :=
  l.foldr insertString []

/-- `joinQueries` (digest.go:367-390). -/
def joinQueries (queries : List String) : String :=
  match queries with
  | [] => ""
  | [q] => q
  | [q1, q2] => q1 ++ " and " ++ q2
  | _ =>
      (queries.enum.map (fun iq =>
        if iq.1 = queries.length - 1 then "and " ++ iq.2
        else if iq.1 > 0 then ", " ++ iq.2
        else iq.2)).foldl (· ++ ·) ""

/-- `(dm *DigestManager) buildDigestSubject` (digest.go:188-209). -/
def buildDigestSubject (priority : Priority) (newCount updatedCount : Nat)
    (queries : List String) : String :=
  let emoji := if priority = PriorityHigh then "🚨"
               else if priority = PriorityLow then "📋" else "📊"
  let totalCount := newCount + updatedCount
  let subject := emoji ++ " Daily Digest: " ++ toString totalCount ++ " SAM.gov Opportunities"
  if queries.length = 1 then subject ++ " - " ++ queries.headD ""
  else if queries.length ≤ 3 then subject ++ " - " ++ joinQueries queries
  else subject ++ " - " ++ toString queries.length ++ " Queries"

/-- `(dm *DigestManager) createDigestNotification` (digest.go:133-185). -/
def createDigestNotification (parseDate : String → Option Time) (now : Time)
    (key : String) (notifications : List PendingNotification) :
    Except String Notification :=
  if notifications.length = 0 then .error "empty notification group"
  else
    let priority := match notifications with
                    | [] => PriorityMedium
                    | p :: _ => p.priority
    let allOpportunities :=
      notifications.foldl (fun acc p => acc ++ p.notification.opportunities) []
    let totalNew := notifications.foldl (fun acc p => acc + p.notification.summary.newOpportunities) 0
    let totalUpdated :=
      notifications.foldl (fun acc p => acc + p.notification.summary.updatedOpportunities) 0
    let queries := sortStrings (distinctKeys (notifications.map (·.queryName)))
    let subject := buildDigestSubject priority totalNew totalUpdated queries
    .ok { queryName := "Digest (" ++ key ++ ")",
          priority := priority,
          subject := subject,
          opportunities := allOpportunities,
          summary := { newOpportunities := totalNew,
                       updatedOpportunities := totalUpdated,
                       upcomingDeadlines := countUpcomingDeadlines parseDate now allOpportunities } }

/-- The per-group body of `ProcessDigest`: build each group's digest and send
it, stopping at the first error; returns the digests sent so far and the
error, if any. -/
def processGroups (notifiers : List Notifier) (parseDate : String → Option Time)
    (now : Time) : List (String × List PendingNotification) →
    List Notification × Option String
  | [] => ([], none)
  | (key, group) :: rest =>
      match createDigestNotification parseDate now key group with
      | .error e => ([], some ("creating digest for " ++ key ++ ": " ++ e))
      | .ok digest =>
          match SendNotification notifiers digest with
          | (.multiErr _, _) => ([], some ("sending digest for " ++ key))
          | (.ok, _) =>
              let r := processGroups notifiers parseDate now rest
              (digest :: r.1, r.2)

/-- `(dm *DigestManager) ProcessDigest` (digest.go:73-105): returns the
digests sent, the queue afterward, and the error, if any (on error the queue
is left as it was; on success it is cleared). -/
def ProcessDigest (notifiers : List Notifier) (parseDate : String → Option Time)
    (now : Time) (queue : List PendingNotification) :
    List Notification × List PendingNotification × Option String :=
  if queue.length = 0 then ([], queue, none)
  else
    match processGroups notifiers parseDate now (groupNotifications queue) with
    | (sent, some e) => (sent, queue, some e)
    | (sent, none) => (sent, [], none)

/-- The observable effect of one
`(dnm *DigestNotificationManager) SendNotificationWithDigest` call
(digest.go:326-341). -/
structure DigestDispatch where
  /-- `some r` when the immediate-send path ran, with its outcome. -/
  sentImmediately : Option (SendOutcome × Nat)
  /-- The queue right after the (possible) `AddNotification`. -/
  queueAfterAdd : List PendingNotification
  /-- Whether `ProcessDigest` ran. -/
  flushed : Bool
  /-- The queue once the call returns. -/
  finalQueue : List PendingNotification
  /-- The error returned by the call mapped through the model
  (`none` for `nil`). -/
  callError : Option String
deriving Repr

/-- `SendNotificationWithDigest` (digest.go:326-341), over a digest queue
state; `digestMaxAge` is the manager's `digestMaxAge` (4 hours by default). -/
def SendNotificationWithDigest (digestMode : Bool) (digestMaxAge : Duration)
    (notifiers : List Notifier) (parseDate : String → Option Time) (now : Time)
    (queue : List PendingNotification) (notification : Notification) : DigestDispatch :=
  if !digestMode || ShouldSendImmediately parseDate now notification then
    let r := SendNotification notifiers notification
    { sentImmediately := some r, queueAfterAdd := queue, flushed := false,
      finalQueue := queue,
      callError := match r.1 with
                   | .ok => none
                   | .multiErr _ => some "notification errors" }
  else
    let queue1 := AddNotification queue notification now
    if ShouldProcessDigest queue1 digestMaxAge now then
      let r := ProcessDigest notifiers parseDate now queue1
      { sentImmediately := none, queueAfterAdd := queue1, flushed := true,
        finalQueue := r.2.1, callError := r.2.2 }
    else
      { sentImmediately := none, queueAfterAdd := queue1, flushed := false,
        finalQueue := queue1, callError := none }

end Notify

namespace Retry

open SamGov

/-- An error from the search collaborator: a structured `*samgov.APIError`
(status code + message), or a plain Go error carrying only its `Error()`
text (network failures and the like). -/
inductive SearchErr : Type
  | apiError (statusCode : Int) (message : String)
  | plainError (message : String)
deriving DecidableEq, Repr

/-- `err.Error()`: the message text of a search error
(`(e APIError) Error()` returns `e.Message`). -/
def SearchErr.errorText : SearchErr → String
  | .apiError _ message => message
  | .plainError message => message

/-- `samgov.SearchResponse` (types.go), reduced to the fields the embedded
functions read. -/
structure SearchResponse where
  totalRecords : Nat
  opportunitiesData : List Opportunity
deriving DecidableEq, Repr, Inhabited

/-- The `A..Z` lower-casing of `containsIgnoreCase` (retry.go:313-349). -/
def lowerChar (c : Char) : Char :=
  if 'A' ≤ c ∧ c ≤ 'Z' then Char.ofNat (c.toNat + 32) else c

/-- Character-list prefix test (one window comparison of the scan in
`containsIgnoreCase`). -/
def charsStartWith : List Char → List Char → Bool
  | _, [] => true
  | [], _ :: _ => false
  | t :: ts, p :: ps => t == p && charsStartWith ts ps

/-- Character-list substring scan (the index loop of `containsIgnoreCase`). -/
def charsContain : List Char → List Char → Bool
  | [], ps => ps.isEmpty
  | t :: ts, ps => charsStartWith (t :: ts) ps || charsContain ts ps

/-- `containsIgnoreCase` (retry.go:313-349). -/
def containsIgnoreCase (text substr : String) : Bool :=
  if substr.length = 0 then true
  else if text.length = 0 then false
  else charsContain (text.data.map lowerChar) (substr.data.map lowerChar)

/-- The retryable message patterns of `isRetryableError` (retry.go:149-157). -/
def retryablePatterns : List String :=
  ["timeout", "connection refused", "connection reset", "network",
   "temporary failure", "i/o timeout", "context deadline exceeded"]

/-- `(rc *RetryClient) isRetryableError` (retry.go:136-166): an `APIError`
is retryable exactly when its status code is in the configured list; any
other error is retryable exactly when its message matches one of the
network-style patterns. -/
def isRetryableError (retryableErrors : List Int) (err : SearchErr) : Bool :=
  match err with
  | .apiError statusCode _ => decide (statusCode ∈ retryableErrors)
  | .plainError _ =>
      retryablePatterns.any (fun pattern => containsIgnoreCase err.errorText pattern)

/-- `samgov.RetryConfig` (retry.go), reduced to the fields `SearchWithRetry`
branches on (delays and jitter only affect timing, not results). -/
structure RetryConfig where
  maxRetries : Nat
  retryableErrors : List Int
deriving DecidableEq, Repr

/-- `DefaultRetryConfig` (retry.go:22-31). -/
def DefaultRetryConfig : RetryConfig :=
  { maxRetries := 3, retryableErrors := [429, 500, 502, 503, 504] }

/-- The result of `SearchWithRetry`: success, a non-retryable error returned
as-is, or the wrapped "search failed after n attempts" error once the retry
budget is spent. -/
inductive RetryOutcome : Type
  | ok (response : SearchResponse)
  | failImmediate (err : SearchErr)
  | exhausted (lastErr : SearchErr)
deriving DecidableEq, Repr

/-- The attempt loop of `SearchWithRetry` (retry.go:58-108). `search` models
`rc.Client.Search` on each attempt index; `remaining = MaxRetries - attempt`
counts the retries still allowed, so `remaining = 0` is the Go loop's
`attempt == rc.config.MaxRetries` check. Returns the outcome and the number
of search attempts made. The context is modelled as never cancelled, and
backoff sleeps have no observable effect on the result. -/
def searchAttemptsFrom (retryableErrors : List Int)
    (search : Nat → Except SearchErr SearchResponse) :
    Nat → Nat → RetryOutcome × Nat
  | attempt, remaining =>
      match search attempt with
      | .ok result => (.ok result, attempt + 1)
      | .error err =>
          if !isRetryableError retryableErrors err then (.failImmediate err, attempt + 1)
          else
            match remaining with
            | 0 => (.exhausted err, attempt + 1)
            | remaining' + 1 => searchAttemptsFrom retryableErrors search (attempt + 1) remaining'

/-- `(rc *RetryClient) SearchWithRetry` (retry.go:55-111). -/
def SearchWithRetry (config : RetryConfig)
    (search : Nat → Except SearchErr SearchResponse) : RetryOutcome × Nat :=
  searchAttemptsFrom config.retryableErrors search 0 config.maxRetries

end Retry

namespace PF

open SamGov
open Retry

/-- `monitor.ErrorType` (part_004:15-26). -/
inductive ErrorType : Type
  | network
  | api
  | rateLimit
  | auth
  | validation
  | timeout
  | unknown
deriving DecidableEq, Repr, Inhabited

/-- `config.Query`, reduced to the fields the failure handler branches on. -/
structure Query where
  name : String
  enabled : Bool
deriving DecidableEq, Repr, Inhabited

/-- `monitor.QueryResult` (part_004:28-37); `Duration` is timing-only and
omitted. -/
structure QueryResult where
  queryName : String
  opportunities : List Opportunity
  success : Bool
  errMsg : Option String
  errorType : ErrorType
  retryCount : Nat
deriving DecidableEq, Repr, Inhabited

/-- `(pfh *PartialFailureHandler) categorizeError` (part_004:408-447). -/
def categorizeError (err : SearchErr) : ErrorType :=
  match err with
  | .apiError statusCode _ =>
      if statusCode = 401 ∨ statusCode = 403 then .auth
      else if statusCode = 429 then .rateLimit
      else if statusCode = 400 ∨ statusCode = 422 then .validation
      else .api
  | .plainError msg =>
      if ["timeout", "context deadline exceeded"].any (containsIgnoreCase msg) then .timeout
      else if ["network", "connection", "dns", "resolve"].any (containsIgnoreCase msg) then .network
      else if ["rate limit", "too many requests"].any (containsIgnoreCase msg) then .rateLimit
      else if ["unauthorized", "forbidden", "authentication"].any (containsIgnoreCase msg) then .auth
      else if ["validation", "invalid", "bad request"].any (containsIgnoreCase msg) then .validation
      else .unknown

/-- The short-circuit result for a disabled query
(part_004:115-123). -/
def disabledResult (q : Query) : QueryResult :=
  { queryName := q.name, opportunities := [], success := false,
    errMsg := some "query disabled", errorType := .validation, retryCount := 0 }

/-- The `for i, x := range` loop shape: map a function of the index and the
element over a list, indices starting at `start`. -/
def mapWithIndexFrom {α β : Type} (f : Nat → α → β) : Nat → List α → List β
  | _, [] => []
  | start, a :: rest => f start a :: mapWithIndexFrom f (start + 1) rest

/-- `(pfh *PartialFailureHandler) executeQueriesParallel` (part_004:104-148):
per index, the short-circuit for disabled queries, otherwise the result of
`pfh.executeQuery` — an external network interaction modelled by the oracle
`exec1` (the context is modelled as never cancelled, and per-index writes
make the concurrent loop equivalent to this map). -/
def executeQueriesParallel (queries : List Query) (exec1 : Nat → QueryResult) :
    List QueryResult :=
  mapWithIndexFrom (fun i q => if q.enabled then exec1 i else disabledResult q) 0 queries

/-- `(pfh *PartialFailureHandler) countFailures` (part_004:450-458). -/
def countFailures (results : List QueryResult) : Nat :=
  (results.filter (fun r => !r.success)).length

/-- The combined effect of `retryFailedQueries` and the per-`ErrorType`
recovery strategies (part_004:219-367): each failed index except the
authentication ones is re-executed (with a delayed / simplified / fallback
query, all network interactions modelled by the oracle `exec2`) and its
result replaced, bumping `RetryCount`; successful and authentication-failed
indices keep their first-pass result. The `errorGroups` map only partitions
the failed indices, so iteration order does not affect the final array. -/
def retryFailedQueries (exec2 : Nat → QueryResult) (results : List QueryResult) :
    List QueryResult :=
  mapWithIndexFrom (fun i r =>
    if r.success then r
    else if r.errorType = .auth then r
    else { exec2 i with retryCount := r.retryCount + 1 }) 0 results

/-- `NewPartialFailureHandler`'s `failureThreshold` (part_004:53): 50% of
queries can fail. -/
def defaultFailureThreshold : ℚ := 1/2

/-- `(pfh *PartialFailureHandler) ExecuteQueriesWithRecovery`
(part_004:58-101). Returns one `QueryResult` per query together with the
aggregate error, if any. -/
def ExecuteQueriesWithRecovery (failureThreshold : ℚ) (queries : List Query)
    (exec1 exec2 : Nat → QueryResult) : List QueryResult × Option String :=
  let results := executeQueriesParallel queries exec1
  let failedCount := countFailures results
  if failedCount = 0 then (results, none)
  else
    let failureRate : ℚ := (failedCount : ℚ) / (queries.length : ℚ)
    if failureRate > failureThreshold then
      (results, some "failure rate exceeds threshold")
    else
      (retryFailedQueries exec2 results, none)

end PF

namespace Proofs

open SamGov Differ Notify Retry PF

/-- Reading back the key just written into a Go map returns the new value. -/
theorem assocGet_assocSet_self {β : Type} (l : List (String × β)) (k : String) (v : β) :
    assocGet (assocSet l k v) k = some v := by
  induction l with
  | nil => simp [assocSet, assocGet]
  | cons p rest ih =>
      obtain ⟨k', v'⟩ := p
      by_cases h : k' = k
      · simp [assocSet, assocGet, h]
      · simp [assocSet, assocGet, h, ih]

/-- Sample opportunity used by concrete witnesses. -/
def sampleOpp : Opportunity :=
  { noticeID := "N-001", title := "Widget maintenance", postedDate := "2024-01-02",
    type := "s", responseDeadline := some "2024-02-15", description := "Routine work",
    typeOfSetAside := "SBA", naicsCode := "541511" }

/-- C2 (part): the store after first observing `sampleOpp` at time 100. -/
def sampleState1 : State := (emptyState.AddOpportunity sampleOpp 100).2

/-- C2: `AddOpportunity` is the spec's upsert. If the NoticeID is absent it
inserts an entry with `firstSeen = lastSeen = lastModified = now` and
`fingerprint = hash(record)` and returns `true`; if present it returns
`false`, always refreshes `lastSeen`, leaves `firstSeen` alone, and bumps
`lastModified` together with the fingerprint exactly when the recomputed
fingerprint differs from the stored one. -/
theorem addOpportunity_upsert_spec (s : State) (opp : Opportunity) (now : Time) :
    (s.GetOpportunity opp.noticeID = none →
       (s.AddOpportunity opp now).1 = true ∧
       ∃ e, (s.AddOpportunity opp now).2.GetOpportunity opp.noticeID = some e ∧
         e.firstSeen = now ∧ e.lastSeen = now ∧ e.lastModified = now ∧
         e.hash = calculateOpportunityHash opp) ∧
    (∀ existing, s.GetOpportunity opp.noticeID = some existing →
       (s.AddOpportunity opp now).1 = false ∧
       ∃ e, (s.AddOpportunity opp now).2.GetOpportunity opp.noticeID = some e ∧
         e.lastSeen = now ∧ e.firstSeen = existing.firstSeen ∧
         (existing.hash ≠ calculateOpportunityHash opp →
            e.lastModified = now ∧ e.hash = calculateOpportunityHash opp) ∧
         (existing.hash = calculateOpportunityHash opp →
            e.lastModified = existing.lastModified ∧ e.hash = existing.hash)) := by
  constructor
  · intro h
    simp only [State.GetOpportunity] at h
    refine ⟨by simp [State.AddOpportunity, h],
            { firstSeen := now, lastSeen := now, lastModified := now,
              noticeID := opp.noticeID, title := opp.title,
              deadline := opp.responseDeadline,
              hash := calculateOpportunityHash opp }, ?_, rfl, rfl, rfl, rfl⟩
    simp [State.AddOpportunity, h, State.GetOpportunity, assocGet_assocSet_self]
  · intro existing h
    simp only [State.GetOpportunity] at h
    by_cases hh : existing.hash = calculateOpportunityHash opp
    · refine ⟨by simp [State.AddOpportunity, h], { existing with lastSeen := now },
              ?_, rfl, rfl, fun hne => absurd hh hne, fun h' => ⟨rfl, rfl⟩⟩
      simp [State.AddOpportunity, h, State.GetOpportunity, hh, assocGet_assocSet_self]
    · refine ⟨by simp [State.AddOpportunity, h],
              { existing with lastSeen := now, lastModified := now,
                              hash := calculateOpportunityHash opp,
                              title := opp.title, deadline := opp.responseDeadline },
              ?_, rfl, rfl, fun h' => ⟨rfl, rfl⟩, fun heq => absurd heq hh⟩
      simp [State.AddOpportunity, h, State.GetOpportunity, hh, assocGet_assocSet_self]

/-- Witness for C2: both branches of `addOpportunity_upsert_spec` at
concrete inputs (a fresh store, then the store already tracking the
record). -/
theorem addOpportunity_upsert_spec_witness :
    ((emptyState.AddOpportunity sampleOpp 100).1 = true ∧
     ∃ e, (emptyState.AddOpportunity sampleOpp 100).2.GetOpportunity sampleOpp.noticeID = some e ∧
       e.firstSeen = 100 ∧ e.lastSeen = 100 ∧ e.lastModified = 100 ∧
       e.hash = calculateOpportunityHash sampleOpp) ∧
    ((sampleState1.AddOpportunity sampleOpp 200).1 = false ∧
     ∃ e, (sampleState1.AddOpportunity sampleOpp 200).2.GetOpportunity sampleOpp.noticeID = some e ∧
       e.lastSeen = 200 ∧
       e.firstSeen = ({ firstSeen := 100, lastSeen := 100, lastModified := 100,
                        noticeID := "N-001", title := "Widget maintenance",
                        deadline := some "2024-02-15",
                        hash := calculateOpportunityHash sampleOpp } : OpportunityState).firstSeen ∧
       (({ firstSeen := 100, lastSeen := 100, lastModified := 100,
           noticeID := "N-001", title := "Widget maintenance",
           deadline := some "2024-02-15",
           hash := calculateOpportunityHash sampleOpp } : OpportunityState).hash ≠
          calculateOpportunityHash sampleOpp →
          e.lastModified = 200 ∧ e.hash = calculateOpportunityHash sampleOpp) ∧
       (({ firstSeen := 100, lastSeen := 100, lastModified := 100,
           noticeID := "N-001", title := "Widget maintenance",
           deadline := some "2024-02-15",
           hash := calculateOpportunityHash sampleOpp } : OpportunityState).hash =
          calculateOpportunityHash sampleOpp →
          e.lastModified = ({ firstSeen := 100, lastSeen := 100, lastModified := 100,
                              noticeID := "N-001", title := "Widget maintenance",
                              deadline := some "2024-02-15",
                              hash := calculateOpportunityHash sampleOpp } : OpportunityState).lastModified ∧
          e.hash = ({ firstSeen := 100, lastSeen := 100, lastModified := 100,
                      noticeID := "N-001", title := "Widget maintenance",
                      deadline := some "2024-02-15",
                      hash := calculateOpportunityHash sampleOpp } : OpportunityState).hash)) :=
  ⟨(addOpportunity_upsert_spec emptyState sampleOpp 100).1 rfl,
   (addOpportunity_upsert_spec sampleState1 sampleOpp 200).2
     { firstSeen := 100, lastSeen := 100, lastModified := 100,
       noticeID := "N-001", title := "Widget maintenance",
       deadline := some "2024-02-15", hash := calculateOpportunityHash sampleOpp }
     (by rfl)⟩

/-- C3 helper: lengths and per-record multiplicities for
`OpportunityDiffer.DiffOpportunities`. -/
theorem diffOpportunities_counts (state : State) (current : List Opportunity) :
    (DiffOpportunities current state).new.length +
      (DiffOpportunities current state).updated.length +
      (DiffOpportunities current state).existing.length = current.length ∧
    ∀ opp : Opportunity,
      (DiffOpportunities current state).new.count opp +
        (DiffOpportunities current state).updated.count opp +
        (DiffOpportunities current state).existing.count opp = current.count opp := by
  induction current with
  | nil => simp [DiffOpportunities]
  | cons o rest ih =>
      obtain ⟨ihlen, ihcount⟩ := ih
      cases hc : classifyOpportunity o state with
      | new =>
          refine ⟨?_, fun opp => ?_⟩
          · simp only [DiffOpportunities, hc, List.length_cons]
            omega
          · have hi := ihcount opp
            simp only [DiffOpportunities, hc, List.count_cons]
            by_cases ho : o = opp <;> simp [ho] <;> omega
      | updated =>
          refine ⟨?_, fun opp => ?_⟩
          · simp only [DiffOpportunities, hc, List.length_cons]
            omega
          · have hi := ihcount opp
            simp only [DiffOpportunities, hc, List.count_cons]
            by_cases ho : o = opp <;> simp [ho] <;> omega
      | existing =>
          refine ⟨?_, fun opp => ?_⟩
          · simp only [DiffOpportunities, hc, List.length_cons]
            omega
          · have hi := ihcount opp
            simp only [DiffOpportunities, hc, List.count_cons]
            by_cases ho : o = opp <;> simp [ho] <;> omega

/-- C3 helper: the same for `Monitor.diffOpportunities`. -/
theorem monitorDiffOpportunities_counts (state : State) (current : List Opportunity) :
    (monitorDiffOpportunities current state).new.length +
      (monitorDiffOpportunities current state).updated.length +
      (monitorDiffOpportunities current state).existing.length = current.length ∧
    ∀ opp : Opportunity,
      (monitorDiffOpportunities current state).new.count opp +
        (monitorDiffOpportunities current state).updated.count opp +
        (monitorDiffOpportunities current state).existing.count opp = current.count opp := by
  induction current with
  | nil => simp [monitorDiffOpportunities]
  | cons o rest ih =>
      obtain ⟨ihlen, ihcount⟩ := ih
      cases hget : state.GetOpportunity o.noticeID with
      | none =>
          refine ⟨?_, fun opp => ?_⟩
          · simp only [monitorDiffOpportunities, hget, List.length_cons]
            omega
          · have hi := ihcount opp
            simp only [monitorDiffOpportunities, hget, List.count_cons]
            by_cases ho : o = opp <;> simp [ho] <;> omega
      | some previous =>
          by_cases hch : hasOpportunityChanged previous o = true
          · refine ⟨?_, fun opp => ?_⟩
            · simp [monitorDiffOpportunities, hget, hch] <;> omega
            · have hi := ihcount opp
              by_cases ho : o = opp
              · subst ho
                simp [monitorDiffOpportunities, hget, hch, List.count_cons] <;> omega
              · simp [monitorDiffOpportunities, hget, hch, List.count_cons, ho] <;> omega
          · refine ⟨?_, fun opp => ?_⟩
            · simp [monitorDiffOpportunities, hget, hch] <;> omega
            · have hi := ihcount opp
              by_cases ho : o = opp
              · subst ho
                simp [monitorDiffOpportunities, hget, hch, List.count_cons] <;> omega
              · simp [monitorDiffOpportunities, hget, hch, List.count_cons, ho] <;> omega

/-- C3: for every batch and store state, both differs partition the batch:
the three output lists have lengths summing to the batch size, and every
record occurs in `New ++ Updated ++ Existing` with exactly the multiplicity
it has in the input batch (so each input occurrence lands in exactly one of
the three lists). -/
theorem diff_partitions_batch (state : State) (current : List Opportunity) :
    ((DiffOpportunities current state).new.length +
       (DiffOpportunities current state).updated.length +
       (DiffOpportunities current state).existing.length = current.length ∧
     ∀ opp : Opportunity,
       (DiffOpportunities current state).new.count opp +
         (DiffOpportunities current state).updated.count opp +
         (DiffOpportunities current state).existing.count opp = current.count opp) ∧
    ((monitorDiffOpportunities current state).new.length +
       (monitorDiffOpportunities current state).updated.length +
       (monitorDiffOpportunities current state).existing.length = current.length ∧
     ∀ opp : Opportunity,
       (monitorDiffOpportunities current state).new.count opp +
         (monitorDiffOpportunities current state).updated.count opp +
         (monitorDiffOpportunities current state).existing.count opp = current.count opp) :=
  ⟨diffOpportunities_counts state current, monitorDiffOpportunities_counts state current⟩

/-- C6: `LoadState` on a missing file, or on contents that fail to parse,
returns an empty usable store (no tracked opportunities) with no error; a
parse failure never propagates. -/
theorem loadState_missing_or_corrupt_recovers
    (parse : String → Option State) (data : String)
    (hcorrupt : parse data = none) :
    LoadState .missing parse = .ok emptyState ∧
    LoadState (.content data) parse = .ok emptyState ∧
    emptyState.opportunities = [] := by
  refine ⟨rfl, ?_, rfl⟩
  simp [LoadState, hcorrupt]

/-- Witness for C6: a concrete unparseable state file. -/
theorem loadState_missing_or_corrupt_recovers_witness :
    ((fun _ : String => (none : Option State)) "this is not json" = none) ∧
    (LoadState .missing (fun _ => none) = .ok emptyState ∧
     LoadState (.content "this is not json") (fun _ => none) = .ok emptyState ∧
     emptyState.opportunities = []) :=
  ⟨rfl, loadState_missing_or_corrupt_recovers (fun _ => none) "this is not json" rfl⟩

/-- C10: a notification manager built from a configuration with every
channel disabled has no notifiers, and its `SendNotification` returns `nil`
for every notification — valid or not — invoking no channel `Send`. -/
theorem sendNotification_no_channels_returns_nil
    (config : NotificationConfig) (emailSend slackSend githubSend : Notifier)
    (n : Notification)
    (he : config.emailEnabled = false) (hs : config.slackEnabled = false)
    (hg : config.githubEnabled = false) :
    NewNotificationManager config emailSend slackSend githubSend = [] ∧
    SendNotification (NewNotificationManager config emailSend slackSend githubSend) n =
      (.ok, 0) := by
  have hmgr : NewNotificationManager config emailSend slackSend githubSend = [] := by
    simp [NewNotificationManager, he, hs, hg]
  exact ⟨hmgr, by simp [hmgr, SendNotification]⟩

/-- C10 (part): a notification that fails validation (empty query name). -/
def invalidNotification : Notification :=
  { queryName := "", priority := "medium", subject := "3 New SAM.gov Opportunities",
    opportunities := [sampleOpp], summary := { newOpportunities := 1,
                                               updatedOpportunities := 0,
                                               upcomingDeadlines := 0 } }

/-- Witness for C10: with all channels disabled, even a notification that
fails validation is accepted with `nil` and zero deliveries. -/
theorem sendNotification_no_channels_returns_nil_witness :
    (ValidateNotification invalidNotification ≠ none) ∧
    (NewNotificationManager { emailEnabled := false, slackEnabled := false,
                              githubEnabled := false }
        (fun _ => some "smtp down") (fun _ => some "webhook down")
        (fun _ => some "api down") = [] ∧
     SendNotification
        (NewNotificationManager { emailEnabled := false, slackEnabled := false,
                                  githubEnabled := false }
          (fun _ => some "smtp down") (fun _ => some "webhook down")
          (fun _ => some "api down")) invalidNotification = (.ok, 0)) :=
  ⟨by decide,
   sendNotification_no_channels_returns_nil
     { emailEnabled := false, slackEnabled := false, githubEnabled := false }
     (fun _ => some "smtp down") (fun _ => some "webhook down") (fun _ => some "api down")
     invalidNotification rfl rfl rfl⟩

/-- A channel notifier whose delivery always succeeds. -/
def noopNotifier : Notifier := fun _ => none

/-- C7 is falsified by the code: `SendNotification` performs no validation
(`ValidateNotification` has no caller). A notification with an empty query
name fails validation, yet `SendNotification` with one configured channel
invokes that channel and returns `nil` instead of rejecting it with a
validation error. -/
theorem sendNotification_skips_validation_counterexample :
    ValidateNotification invalidNotification ≠ none ∧
    SendNotification [noopNotifier] invalidNotification = (.ok, 1) :=
  ⟨by decide, rfl⟩

/-- C7 amended: `ValidateNotification` implements exactly the four spec
checks (query name, subject, at least one record, priority in
{high, medium, low}), but the notification manager's `SendNotification`
never calls it: every notification, valid or not, is dispatched to all
configured channel notifiers. -/
theorem validateNotification_spec_but_send_does_not_validate :
    (∀ n : Notification, ValidateNotification n = none ↔
       (n.queryName ≠ "" ∧ n.subject ≠ "" ∧ n.opportunities.length ≠ 0 ∧
        (n.priority = PriorityHigh ∨ n.priority = PriorityMedium ∨
         n.priority = PriorityLow))) ∧
    (∀ (notifiers : List Notifier) (n : Notification), notifiers ≠ [] →
       (SendNotification notifiers n).2 = notifiers.length) := by
  constructor
  · intro n
    unfold ValidateNotification
    split_ifs with h1 h2 h3 h4
    · simp [h1]
    · simp [h1, h2]
    · simp [h1, h2, h3]
    · simp only [reduceCtorEq, false_iff]
      intro hcon
      exact hcon.2.2.2.elim (fun h => h4.1 h)
        (fun h => h.elim (fun h => h4.2.1 h) (fun h => h4.2.2 h))
    · push_neg at h4
      simp only [eq_self_iff_true, true_iff]
      refine ⟨h1, h2, h3, ?_⟩
      by_cases hh : n.priority = PriorityHigh
      · exact Or.inl hh
      · by_cases hm : n.priority = PriorityMedium
        · exact Or.inr (Or.inl hm)
        · exact Or.inr (Or.inr (h4 hh hm))
  · intro notifiers n h
    have hlen : notifiers.length ≠ 0 := by
      simpa [List.length_eq_zero] using h
    simp [SendNotification, hlen]

/-- Witness for the C7 amended theorem: the validator instantiated at the
invalid notification, and a one-channel dispatch that still invokes the
channel for it. -/
theorem validateNotification_spec_but_send_does_not_validate_witness :
    (ValidateNotification invalidNotification = none ↔
       (invalidNotification.queryName ≠ "" ∧ invalidNotification.subject ≠ "" ∧
        invalidNotification.opportunities.length ≠ 0 ∧
        (invalidNotification.priority = PriorityHigh ∨
         invalidNotification.priority = PriorityMedium ∨
         invalidNotification.priority = PriorityLow))) ∧
    (SendNotification [noopNotifier] invalidNotification).2 =
      ([noopNotifier] : List Notifier).length :=
  ⟨(validateNotification_spec_but_send_does_not_validate).1 invalidNotification,
   (validateNotification_spec_but_send_does_not_validate).2 [noopNotifier]
     invalidNotification (by simp)⟩

/-- C1 (part): a tracked opportunity and its re-observations. -/
def c1Opp : Opportunity :=
  { noticeID := "C-100", title := "Bridge works", postedDate := "2024-01-05",
    type := "s", responseDeadline := some "2024-04-01", description := "Scope.",
    typeOfSetAside := "SBA", naicsCode := "237310" }

/-- C1 (part): the same record with only the set-aside code changed. -/
def c1OppSetAside : Opportunity := { c1Opp with typeOfSetAside := "8(a)" }

/-- C1 (part): the same record with only the title changed. -/
def c1OppTitle : Opportunity := { c1Opp with title := "Bridge works phase 2" }

/-- C1 (part): the store after first observing `c1Opp` at time 1000. -/
def c1State : State := (emptyState.AddOpportunity c1Opp 1000).2

/-- C1 (part): the entry `c1State` tracks for `c1Opp`. -/
def c1Entry : OpportunityState :=
  { firstSeen := 1000, lastSeen := 1000, lastModified := 1000, noticeID := "C-100",
    title := "Bridge works", deadline := some "2024-04-01",
    hash := calculateOpportunityHash c1Opp }

/-- C1 is falsified for set-aside (and likewise classification) codes: the
store's fingerprint (`calculateOpportunityHash`) covers only NoticeID,
Title, PostedDate, Type and ResponseDeadline, so re-observing a tracked
record with only its set-aside code changed returns `false` from the upsert,
leaves the stored fingerprint unchanged, and does not bump `lastModified`
(it stays 1000 instead of moving to 2000). -/
theorem setAside_change_keeps_fingerprint_counterexample :
    (c1State.AddOpportunity c1OppSetAside 2000).1 = false ∧
    Option.map OpportunityState.hash
      ((c1State.AddOpportunity c1OppSetAside 2000).2.GetOpportunity "C-100") =
      Option.map OpportunityState.hash (c1State.GetOpportunity "C-100") ∧
    Option.map OpportunityState.lastModified
      ((c1State.AddOpportunity c1OppSetAside 2000).2.GetOpportunity "C-100") =
      some 1000 ∧
    Option.map OpportunityState.lastModified
      ((c1State.AddOpportunity c1OppSetAside 2000).2.GetOpportunity "C-100") ≠
      some 2000 := by
  refine ⟨rfl, rfl, rfl, by decide⟩

/-- C1 helper: whenever the stored digest differs from the Differ's content
digest, `detectChanges` reports at least one change. -/
theorem detectChanges_length_pos (previous : OpportunityState) (current : Opportunity)
    (h : previous.hash ≠ calculateContentHash current) :
    (detectChanges previous current).length > 0 := by
  unfold detectChanges
  by_cases h1 : previous.title ≠ current.title <;>
    by_cases h2 : deadlineString previous.deadline ≠ deadlineString current.responseDeadline <;>
      simp [h1, h2, h]

/-- C1 helper: a record already tracked in the store (whose stored digest
came from `calculateOpportunityHash`, a 5-field digest, never equal to the
8-field content digest) is classified `updated` by the Differ. -/
theorem classify_tracked_is_updated (s : State) (entry : OpportunityState)
    (opp : Opportunity)
    (htrack : s.GetOpportunity opp.noticeID = some entry)
    (hne : entry.hash ≠ calculateContentHash opp) :
    classifyOpportunity opp s = .updated := by
  have hlen := detectChanges_length_pos entry opp hne
  simp [classifyOpportunity, htrack, hlen]

/-- C1 amended: for a tracked record (stored digest recomputed from the
previous observation), re-observing with a change to title, postedDate,
type, or the deadline text bumps `lastModified` to `now` and replaces the
stored fingerprint with a different one; re-observing with those four fields
unchanged (in particular with only the set-aside or classification code
changed) leaves both the fingerprint and `lastModified` untouched. In either
case the `OpportunityDiffer` classifies the tracked record as Updated, never
as New. -/
theorem identity_field_change_detection
    (s : State) (entry : OpportunityState) (oldOpp newOpp : Opportunity) (now : Time)
    (htrack : s.GetOpportunity newOpp.noticeID = some entry)
    (hhash : entry.hash = calculateOpportunityHash oldOpp)
    (hid : oldOpp.noticeID = newOpp.noticeID) :
    ((oldOpp.title ≠ newOpp.title ∨ oldOpp.postedDate ≠ newOpp.postedDate ∨
      oldOpp.type ≠ newOpp.type ∨
      deadlineString oldOpp.responseDeadline ≠ deadlineString newOpp.responseDeadline) →
       (s.AddOpportunity newOpp now).1 = false ∧
       ∃ e, (s.AddOpportunity newOpp now).2.GetOpportunity newOpp.noticeID = some e ∧
         e.lastModified = now ∧ e.hash = calculateOpportunityHash newOpp ∧
         e.hash ≠ entry.hash) ∧
    ((oldOpp.title = newOpp.title ∧ oldOpp.postedDate = newOpp.postedDate ∧
      oldOpp.type = newOpp.type ∧
      deadlineString oldOpp.responseDeadline = deadlineString newOpp.responseDeadline) →
       (s.AddOpportunity newOpp now).1 = false ∧
       ∃ e, (s.AddOpportunity newOpp now).2.GetOpportunity newOpp.noticeID = some e ∧
         e.lastModified = entry.lastModified ∧ e.hash = entry.hash) ∧
    (classifyOpportunity newOpp s = .updated ∧ classifyOpportunity newOpp s ≠ .new) := by
  have hcontent : entry.hash ≠ calculateContentHash newOpp := by
    rw [hhash]
    intro he
    have hl := congrArg List.length he
    simp [calculateOpportunityHash, calculateContentHash, sha256Hex] at hl
  have hclass := classify_tracked_is_updated s entry newOpp htrack hcontent
  refine ⟨?_, ?_, hclass, by simp [hclass]⟩
  · intro hdiff
    have hne : entry.hash ≠ calculateOpportunityHash newOpp := by
      rw [hhash]
      intro he
      simp [calculateOpportunityHash, sha256Hex] at he
      obtain ⟨hA, hB, hC, hD, hE⟩ := he
      rcases hdiff with hx | hx | hx | hx <;> exact hx (by assumption)
    have htrack' : assocGet s.opportunities newOpp.noticeID = some entry := htrack
    constructor
    · simp [State.AddOpportunity, htrack']
    · refine ⟨{ entry with lastSeen := now, lastModified := now,
                           hash := calculateOpportunityHash newOpp,
                           title := newOpp.title,
                           deadline := newOpp.responseDeadline }, ?_, rfl, rfl, ?_⟩
      · simp [State.AddOpportunity, htrack', State.GetOpportunity, hne,
              assocGet_assocSet_self]
      · exact fun h => hne h.symm
  · intro hsame
    obtain ⟨h1, h2, h3, h4⟩ := hsame
    have heqhash : entry.hash = calculateOpportunityHash newOpp := by
      rw [hhash]
      simp [calculateOpportunityHash, sha256Hex, hid, h1, h2, h3, h4]
    have htrack' : assocGet s.opportunities newOpp.noticeID = some entry := htrack
    constructor
    · simp [State.AddOpportunity, htrack']
    · refine ⟨{ entry with lastSeen := now }, ?_, rfl, rfl⟩
      simp [State.AddOpportunity, htrack', State.GetOpportunity, heqhash,
            assocGet_assocSet_self]

/-- Witness for the C1 amended theorem: a title change bumps `lastModified`
and the fingerprint; a set-aside-only change leaves both untouched; the
Differ classifies the tracked record as Updated. -/
theorem identity_field_change_detection_witness :
    ((c1State.AddOpportunity c1OppTitle 2000).1 = false ∧
     Option.map OpportunityState.lastModified
       ((c1State.AddOpportunity c1OppTitle 2000).2.GetOpportunity c1OppTitle.noticeID) =
       some 2000 ∧
     Option.map OpportunityState.hash
       ((c1State.AddOpportunity c1OppTitle 2000).2.GetOpportunity c1OppTitle.noticeID) =
       some (calculateOpportunityHash c1OppTitle)) ∧
    ((c1State.AddOpportunity c1OppSetAside 3000).1 = false ∧
     Option.map OpportunityState.lastModified
       ((c1State.AddOpportunity c1OppSetAside 3000).2.GetOpportunity c1OppSetAside.noticeID) =
       some 1000) ∧
    classifyOpportunity c1OppTitle c1State = .updated := by
  obtain ⟨hf1, e1, hget1, hlm1, hh1, _⟩ :=
    (identity_field_change_detection c1State c1Entry c1Opp c1OppTitle 2000
      rfl rfl rfl).1 (Or.inl (by decide))
  obtain ⟨hf2, e2, hget2, hlm2, hh2⟩ :=
    (identity_field_change_detection c1State c1Entry c1Opp c1OppSetAside 3000
      rfl rfl rfl).2.1 ⟨rfl, rfl, rfl, rfl⟩
  have hcl :=
    (identity_field_change_detection c1State c1Entry c1Opp c1OppTitle 2000
      rfl rfl rfl).2.2.1
  refine ⟨⟨hf1, ?_, ?_⟩, ⟨hf2, ?_⟩, hcl⟩
  · simp [hget1, hlm1]
  · simp [hget1, hh1]
  · simp only [hget2, Option.map]
    rw [hlm2]
    rfl

/-- C8 helper: `hasUrgentDeadlines` holds exactly when some opportunity has
a parseable deadline strictly between now and three days from now. -/
theorem hasUrgentDeadlines_iff (parseDate : String → Option Time) (now : Time)
    (opps : List Opportunity) :
    hasUrgentDeadlines parseDate now opps = true ↔
      ∃ opp ∈ opps, ∃ d t, opp.responseDeadline = some d ∧ parseDate d = some t ∧
        now < t ∧ t < addDays now 3 := by
  simp only [hasUrgentDeadlines, List.any_eq_true]
  constructor
  · rintro ⟨opp, hmem, hp⟩
    refine ⟨opp, hmem, ?_⟩
    cases hd : opp.responseDeadline with
    | none => rw [hd] at hp; simp at hp
    | some d =>
        rw [hd] at hp
        dsimp only at hp
        cases ht : parseDate d with
        | none => rw [ht] at hp; simp at hp
        | some t =>
            rw [ht] at hp
            dsimp only at hp
            simp only [Bool.and_eq_true, decide_eq_true_eq] at hp
            exact ⟨d, t, rfl, ht, hp.2, hp.1⟩
  · rintro ⟨opp, hmem, d, t, hd, ht, h1, h2⟩
    exact ⟨opp, hmem, by simp [hd, ht, h1, h2]⟩

/-- C8: `ShouldSendImmediately` is true exactly when the priority is high,
or some opportunity's deadline parses to a time within the next 3 days, or
the notification carries at least 10 opportunities; otherwise (in digest
mode) `SendNotificationWithDigest` takes no immediate-send path and appends
the notification to the digest queue. -/
theorem shouldSendImmediately_spec (parseDate : String → Option Time) (now : Time)
    (n : Notification) :
    (ShouldSendImmediately parseDate now n = true ↔
      (n.priority = PriorityHigh ∨
       (∃ opp ∈ n.opportunities, ∃ d t, opp.responseDeadline = some d ∧
          parseDate d = some t ∧ now < t ∧ t < addDays now 3) ∨
       n.opportunities.length ≥ 10)) ∧
    (∀ (digestMaxAge : Duration) (notifiers : List Notifier)
       (queue : List PendingNotification),
       ShouldSendImmediately parseDate now n = false →
       (SendNotificationWithDigest true digestMaxAge notifiers parseDate now
          queue n).sentImmediately = none ∧
       (SendNotificationWithDigest true digestMaxAge notifiers parseDate now
          queue n).queueAfterAdd =
         queue ++ [{ notification := n, queryName := n.queryName,
                     priority := n.priority, createdAt := now }]) := by
  constructor
  · constructor
    · intro h
      unfold ShouldSendImmediately at h
      split_ifs at h with h1 h2 h3
      · exact Or.inl h1
      · exact Or.inr (Or.inl ((hasUrgentDeadlines_iff parseDate now n.opportunities).1 h2))
      · exact Or.inr (Or.inr h3)
    · intro h
      unfold ShouldSendImmediately
      rcases h with h | h | h
      · simp [h]
      · have hb := (hasUrgentDeadlines_iff parseDate now n.opportunities).2 h
        simp [hb]
      · simp [h]
  · intro digestMaxAge notifiers queue himm
    constructor
    · unfold SendNotificationWithDigest
      simp only [himm, Bool.not_true, Bool.false_or, Bool.false_eq_true, if_false]
      split_ifs <;> rfl
    · unfold SendNotificationWithDigest
      simp only [himm, Bool.not_true, Bool.false_or, Bool.false_eq_true, if_false]
      split_ifs <;> simp [AddNotification]

/-- C8 sample: a medium-priority notification with one deadline-free
opportunity (not urgent, fewer than 10 records). -/
def quietNotification : Notification :=
  { queryName := "quiet query", priority := "medium", subject := "1 New Opportunity",
    opportunities := [{ noticeID := "Q-1", title := "Quiet", postedDate := "2024-01-01",
                        type := "s", responseDeadline := none, description := "",
                        typeOfSetAside := "", naicsCode := "" }],
    summary := { newOpportunities := 1, updatedOpportunities := 0,
                 upcomingDeadlines := 0 } }

/-- Witness for C8: the non-immediate branch at a concrete notification —
it is queued, not sent. -/
theorem shouldSendImmediately_spec_witness :
    (ShouldSendImmediately (fun _ => none) 0 quietNotification = false) ∧
    ((SendNotificationWithDigest true 14400 [] (fun _ => none) 0 []
        quietNotification).sentImmediately = none ∧
     (SendNotificationWithDigest true 14400 [] (fun _ => none) 0 []
        quietNotification).queueAfterAdd =
       [] ++ [{ notification := quietNotification,
                queryName := quietNotification.queryName,
                priority := quietNotification.priority, createdAt := 0 }]) :=
  ⟨by decide,
   (shouldSendImmediately_spec (fun _ => none) 0 quietNotification).2 14400 [] []
     (by decide)⟩

/-- C5 helper: the retry loop makes at most `attempt + remaining + 1` total
attempts when entered at index `attempt` with `remaining` retries left. -/
theorem searchAttemptsFrom_bound (retryableErrors : List Int)
    (search : Nat → Except SearchErr SearchResponse) :
    ∀ (remaining attempt : Nat),
      (searchAttemptsFrom retryableErrors search attempt remaining).2 ≤
        attempt + remaining + 1 := by
  intro remaining
  induction remaining with
  | zero =>
      intro attempt
      unfold searchAttemptsFrom
      cases search attempt with
      | ok r => simp
      | error e =>
          by_cases hre : isRetryableError retryableErrors e <;> simp [hre]
  | succ r ih =>
      intro attempt
      unfold searchAttemptsFrom
      cases search attempt with
      | ok resp => simp
      | error e =>
          by_cases hre : isRetryableError retryableErrors e
          · simp only [hre, Bool.not_true, Bool.false_eq_true, if_false]
            have hr := ih (attempt + 1)
            omega
          · simp [hre]

/-- C5: the retry budget is finite — `SearchWithRetry` performs at most
`MaxRetries + 1` attempts — and a non-retryable error (in particular an
`APIError` whose status code is outside the configured retryable set, such
as 400/401/403 under the default config) is returned immediately after the
failing attempt, with no further retry. -/
theorem searchWithRetry_bounded_and_nonretryable_immediate :
    (∀ (config : RetryConfig) (search : Nat → Except SearchErr SearchResponse),
       (SearchWithRetry config search).2 ≤ config.maxRetries + 1) ∧
    (∀ (retryableErrors : List Int) (search : Nat → Except SearchErr SearchResponse)
       (attempt remaining : Nat) (err : SearchErr),
       search attempt = .error err →
       isRetryableError retryableErrors err = false →
       searchAttemptsFrom retryableErrors search attempt remaining =
         (.failImmediate err, attempt + 1)) ∧
    (∀ (statusCode : Int) (message : String),
       statusCode ∉ DefaultRetryConfig.retryableErrors →
       isRetryableError DefaultRetryConfig.retryableErrors
         (.apiError statusCode message) = false) ∧
    (∀ (search : Nat → Except SearchErr SearchResponse) (err : SearchErr),
       search 0 = .error err →
       isRetryableError DefaultRetryConfig.retryableErrors err = false →
       SearchWithRetry DefaultRetryConfig search = (.failImmediate err, 1)) := by
  have himm : ∀ (retryableErrors : List Int)
      (search : Nat → Except SearchErr SearchResponse)
      (attempt remaining : Nat) (err : SearchErr),
      search attempt = .error err →
      isRetryableError retryableErrors err = false →
      searchAttemptsFrom retryableErrors search attempt remaining =
        (.failImmediate err, attempt + 1) := by
    intro retryableErrors search attempt remaining err hsearch hre
    unfold searchAttemptsFrom
    rw [hsearch]
    simp [hre]
  refine ⟨?_, himm, ?_, ?_⟩
  · intro config search
    have h := searchAttemptsFrom_bound config.retryableErrors search config.maxRetries 0
    simpa [SearchWithRetry] using h
  · intro statusCode message hmem
    simp [isRetryableError, hmem]
  · intro search err hsearch hre
    unfold SearchWithRetry
    exact himm _ search 0 DefaultRetryConfig.maxRetries err hsearch hre

/-- C5 sample: a search collaborator that always fails with an auth error. -/
def search401 : Nat → Except SearchErr SearchResponse :=
  fun _ => .error (.apiError 401 "Unauthorized")

/-- Witness for C5: against a collaborator that always returns 401, the
default-config retry client stops after a single attempt, returning the
auth error unchanged. -/
theorem searchWithRetry_bounded_and_nonretryable_immediate_witness :
    ((SearchWithRetry DefaultRetryConfig search401).2 ≤
       DefaultRetryConfig.maxRetries + 1) ∧
    isRetryableError DefaultRetryConfig.retryableErrors
      (.apiError 401 "Unauthorized") = false ∧
    SearchWithRetry DefaultRetryConfig search401 =
      (.failImmediate (.apiError 401 "Unauthorized"), 1) :=
  ⟨searchWithRetry_bounded_and_nonretryable_immediate.1 DefaultRetryConfig search401,
   searchWithRetry_bounded_and_nonretryable_immediate.2.2.1 401 "Unauthorized" (by decide),
   searchWithRetry_bounded_and_nonretryable_immediate.2.2.2 search401
     (.apiError 401 "Unauthorized") rfl
     (searchWithRetry_bounded_and_nonretryable_immediate.2.2.1 401 "Unauthorized"
       (by decide))⟩

/-- Index-preserving length of the `for i, x := range` map. -/
theorem mapWithIndexFrom_length {α β : Type} (f : Nat → α → β) :
    ∀ (l : List α) (start : Nat), (mapWithIndexFrom f start l).length = l.length := by
  intro l
  induction l with
  | nil => intro start; rfl
  | cons a rest ih => intro start; simp [mapWithIndexFrom, ih]

/-- Element `i` of the `for i, x := range` map. -/
theorem mapWithIndexFrom_getElem? {α β : Type} (f : Nat → α → β) :
    ∀ (l : List α) (start i : Nat),
      (mapWithIndexFrom f start l)[i]? = (l[i]?).map (f (start + i)) := by
  intro l
  induction l with
  | nil => intro start i; simp [mapWithIndexFrom]
  | cons a rest ih =>
      intro start i
      cases i with
      | zero => simp [mapWithIndexFrom]
      | succ j =>
          simp only [mapWithIndexFrom, List.getElem?_cons_succ]
          rw [ih (start + 1) j, (by omega : start + 1 + j = start + (j + 1))]

/-- C4: with the default 50% threshold, `ExecuteQueriesWithRecovery` returns
a non-nil aggregate error exactly when the first-pass failure fraction
strictly exceeds the threshold; it always returns one `QueryResult` per
input query, and every query that succeeded in the first pass keeps its
result untouched by the recovery pass. -/
theorem executeQueriesWithRecovery_threshold_spec (queries : List Query)
    (exec1 exec2 : Nat → QueryResult) :
    ((ExecuteQueriesWithRecovery defaultFailureThreshold queries exec1 exec2).2.isSome ↔
       ((countFailures (executeQueriesParallel queries exec1) : ℚ) /
          (queries.length : ℚ) > defaultFailureThreshold)) ∧
    (ExecuteQueriesWithRecovery defaultFailureThreshold queries exec1 exec2).1.length =
      queries.length ∧
    (∀ (i : Nat) (r : QueryResult),
       (executeQueriesParallel queries exec1)[i]? = some r → r.success = true →
       (ExecuteQueriesWithRecovery defaultFailureThreshold queries exec1 exec2).1[i]? =
         some r) := by
  by_cases h0 : countFailures (executeQueriesParallel queries exec1) = 0
  · have hr : ExecuteQueriesWithRecovery defaultFailureThreshold queries exec1 exec2 =
        (executeQueriesParallel queries exec1, none) := by
      simp [ExecuteQueriesWithRecovery, h0]
    refine ⟨?_, ?_, ?_⟩
    · rw [hr, h0]
      simp [defaultFailureThreshold]
    · rw [hr]
      simp [executeQueriesParallel, mapWithIndexFrom_length]
    · intro i r hi hs
      rw [hr]
      exact hi
  · by_cases hgt : ((countFailures (executeQueriesParallel queries exec1) : ℚ) /
        (queries.length : ℚ) > defaultFailureThreshold)
    · have hr : ExecuteQueriesWithRecovery defaultFailureThreshold queries exec1 exec2 =
          (executeQueriesParallel queries exec1,
           some "failure rate exceeds threshold") := by
        simp [ExecuteQueriesWithRecovery, h0, hgt]
      refine ⟨?_, ?_, ?_⟩
      · rw [hr]
        simpa using hgt
      · rw [hr]
        simp [executeQueriesParallel, mapWithIndexFrom_length]
      · intro i r hi hs
        rw [hr]
        exact hi
    · have hr : ExecuteQueriesWithRecovery defaultFailureThreshold queries exec1 exec2 =
          (retryFailedQueries exec2 (executeQueriesParallel queries exec1), none) := by
        simp [ExecuteQueriesWithRecovery, h0, hgt]
      refine ⟨?_, ?_, ?_⟩
      · rw [hr]
        simpa using hgt
      · rw [hr]
        simp [retryFailedQueries, executeQueriesParallel, mapWithIndexFrom_length]
      · intro i r hi hs
        rw [hr]
        simp only [retryFailedQueries, mapWithIndexFrom_getElem?, hi, Nat.zero_add,
                   Option.map_some']
        simp [hs]

/-- C4 sample: five enabled queries. -/
def c4Queries : List Query :=
  [{ name := "q0", enabled := true }, { name := "q1", enabled := true },
   { name := "q2", enabled := true }, { name := "q3", enabled := true },
   { name := "q4", enabled := true }]

/-- C4 sample: a successful query result. -/
def c4Success (name : String) : QueryResult :=
  { queryName := name, opportunities := [], success := true, errMsg := none,
    errorType := .unknown, retryCount := 0 }

/-- C4 sample: first pass in which exactly query 1 fails with a network
error. -/
def c4Exec1 : Nat → QueryResult :=
  fun i =>
    if i = 1 then
      { queryName := "q1", opportunities := [], success := false,
        errMsg := some "connection refused", errorType := .network, retryCount := 0 }
    else c4Success ("q" ++ toString i)

/-- C4 sample: the recovery pass, which succeeds. -/
def c4Exec2 : Nat → QueryResult :=
  fun i => c4Success ("q" ++ toString i)

/-- Witness for C4: the spec scenario — 5 queries, exactly 1 network
failure (20%) — does not abort: nil aggregate error, 5 results, and the
successful query 0 is untouched. -/
theorem executeQueriesWithRecovery_threshold_spec_witness :
    countFailures (executeQueriesParallel c4Queries c4Exec1) = 1 ∧
    (ExecuteQueriesWithRecovery defaultFailureThreshold c4Queries c4Exec1 c4Exec2).2 =
      none ∧
    (ExecuteQueriesWithRecovery defaultFailureThreshold c4Queries c4Exec1 c4Exec2).1.length =
      5 ∧
    (ExecuteQueriesWithRecovery defaultFailureThreshold c4Queries c4Exec1 c4Exec2).1[0]? =
      some (c4Success "q0") := by
  have hth := executeQueriesWithRecovery_threshold_spec c4Queries c4Exec1 c4Exec2
  have hc : countFailures (executeQueriesParallel c4Queries c4Exec1) = 1 := rfl
  have hrate : ¬(((countFailures (executeQueriesParallel c4Queries c4Exec1) : ℚ) /
      (c4Queries.length : ℚ)) > defaultFailureThreshold) := by
    rw [hc]
    have h5 : (c4Queries.length : ℚ) = 5 := by norm_num [c4Queries]
    rw [h5]
    norm_num [defaultFailureThreshold]
  refine ⟨hc, ?_, ?_, ?_⟩
  · exact Option.not_isSome_iff_eq_none.mp (fun hs => hrate (hth.1.mp hs))
  · rw [hth.2.1]
    rfl
  · exact hth.2.2 0 (c4Success "q0") rfl rfl

/-- Membership in the distinct-key accumulator fold. -/
theorem mem_foldl_insertKey (a : String) :
    ∀ (l acc : List String),
      (a ∈ l.foldl (fun acc k => if k ∈ acc then acc else acc ++ [k]) acc) ↔
        (a ∈ acc ∨ a ∈ l) := by
  intro l
  induction l with
  | nil => intro acc; simp
  | cons k rest ih =>
      intro acc
      simp only [List.foldl_cons]
      by_cases hk : k ∈ acc
      · rw [if_pos hk, ih]
        constructor
        · rintro (h | h)
          · exact Or.inl h
          · exact Or.inr (List.mem_cons_of_mem _ h)
        · rintro (h | h)
          · exact Or.inl h
          · rcases List.mem_cons.mp h with rfl | h
            · exact Or.inl hk
            · exact Or.inr h
      · rw [if_neg hk, ih]
        constructor
        · rintro (h | h)
          · rcases List.mem_append.mp h with h | h
            · exact Or.inl h
            · simp only [List.mem_singleton] at h
              subst h
              exact Or.inr (List.mem_cons_self _ _)
          · exact Or.inr (List.mem_cons_of_mem _ h)
        · rintro (h | h)
          · exact Or.inl (List.mem_append.mpr (Or.inl h))
          · rcases List.mem_cons.mp h with rfl | h
            · exact Or.inl (List.mem_append.mpr (Or.inr (by simp)))
            · exact Or.inr h

/-- `distinctKeys` has the same members as its input. -/
theorem mem_distinctKeys (a : String) (l : List String) :
    a ∈ distinctKeys l ↔ a ∈ l := by
  unfold distinctKeys
  rw [mem_foldl_insertKey]
  simp

/-- Insertion preserves length in the per-group sort. -/
theorem insertByCreatedAt_length (p : PendingNotification) :
    ∀ l, (insertByCreatedAt p l).length = l.length + 1 := by
  intro l
  induction l with
  | nil => rfl
  | cons q rest ih =>
      unfold insertByCreatedAt
      by_cases h : p.createdAt < q.createdAt <;> simp [h, ih]

/-- The per-group sort preserves length. -/
theorem sortByCreatedAt_length (l : List PendingNotification) :
    (sortByCreatedAt l).length = l.length := by
  unfold sortByCreatedAt
  induction l with
  | nil => rfl
  | cons q rest ih => simp [List.foldr_cons, insertByCreatedAt_length, ih]

/-- Every group produced by `groupNotifications` is nonempty (its key comes
from some member of the queue). -/
theorem groupNotifications_groups_nonempty (queue : List PendingNotification) :
    ∀ g ∈ groupNotifications queue, g.2.length ≠ 0 := by
  intro g hg
  simp only [groupNotifications, List.mem_map] at hg
  obtain ⟨k, hk, rfl⟩ := hg
  have hk' : k ∈ queue.map groupKey := (mem_distinctKeys _ _).mp hk
  rw [List.mem_map] at hk'
  obtain ⟨p, hp, hpk⟩ := hk'
  have hmem : p ∈ queue.filter (fun q => groupKey q = k) := by
    rw [List.mem_filter]
    exact ⟨hp, by simp [hpk]⟩
  have hflen : (queue.filter (fun q => groupKey q = k)).length ≠ 0 := by
    intro h0
    rw [List.length_eq_zero] at h0
    rw [h0] at hmem
    simp at hmem
  simpa [sortByCreatedAt_length] using hflen

/-- When every configured channel delivery succeeds, `SendNotification`
returns `nil` after invoking each channel once. -/
theorem sendNotification_all_ok (notifiers : List Notifier) (m : Notification)
    (h : ∀ send ∈ notifiers, send m = none) :
    SendNotification notifiers m = (.ok, notifiers.length) := by
  unfold SendNotification
  by_cases h0 : notifiers.length = 0
  · have hnil : notifiers = [] := List.length_eq_zero.mp h0
    simp [hnil]
  · have herr : ((notifiers.map (fun send => send m)).filterMap id) = [] := by
      rw [List.filterMap_eq_nil_iff]
      intro a ha
      rw [List.mem_map] at ha
      obtain ⟨send, hsend, rfl⟩ := ha
      exact h send hsend
    simp [h0, herr]

/-- When channel deliveries all succeed and every group is nonempty, the
per-group body of `ProcessDigest` sends one digest per group and reports no
error. -/
theorem processGroups_all_ok (notifiers : List Notifier)
    (parseDate : String → Option Time) (now : Time)
    (h : ∀ send ∈ notifiers, ∀ m, send m = none) :
    ∀ groups : List (String × List PendingNotification),
      (∀ g ∈ groups, g.2.length ≠ 0) →
      (processGroups notifiers parseDate now groups).2 = none ∧
      (processGroups notifiers parseDate now groups).1.length = groups.length := by
  intro groups
  induction groups with
  | nil => intro _; simp [processGroups]
  | cons g rest ih =>
      intro hne
      obtain ⟨key, group⟩ := g
      have hglen : group.length ≠ 0 := hne (key, group) (by simp)
      cases hcd : createDigestNotification parseDate now key group with
      | error e =>
          exfalso
          simp [createDigestNotification, hglen] at hcd
      | ok digest =>
          have hsendok := sendNotification_all_ok notifiers digest
            (fun send hs => h send hs digest)
          have hrest := ih (fun g hg => hne g (List.mem_cons_of_mem _ hg))
          simp only [processGroups, hcd, hsendok]
          simp [hrest.1, hrest.2]

/-- C9: the batcher never flushes on an empty queue or while the oldest
pending notification is younger than `maxAge`; once that age is reached
`ShouldProcessDigest` fires, and (with succeeding channel deliveries)
`ProcessDigest` sends exactly one merged notification per priority group
and leaves the pending queue empty. -/
theorem digest_flush_threshold_spec (queue : List PendingNotification)
    (maxAge : Duration) (now : Time) (notifiers : List Notifier)
    (parseDate : String → Option Time) :
    (queue = [] → ShouldProcessDigest queue maxAge now = false) ∧
    (∀ oldest : Time, GetOldestPending queue = some oldest →
       now - oldest < maxAge → ShouldProcessDigest queue maxAge now = false) ∧
    (∀ oldest : Time, GetOldestPending queue = some oldest →
       now - oldest ≥ maxAge → ShouldProcessDigest queue maxAge now = true) ∧
    (ShouldProcessDigest queue maxAge now = true →
       (∀ send ∈ notifiers, ∀ m, send m = none) →
       (ProcessDigest notifiers parseDate now queue).2.2 = none ∧
       (ProcessDigest notifiers parseDate now queue).2.1 = [] ∧
       (ProcessDigest notifiers parseDate now queue).1.length =
         (distinctKeys (queue.map groupKey)).length) := by
  refine ⟨?_, ?_, ?_, ?_⟩
  · intro h
    simp [ShouldProcessDigest, h]
  · intro oldest holdest hage
    unfold ShouldProcessDigest
    by_cases hq : queue.length = 0
    · simp [hq]
    · rw [if_neg hq, holdest]
      dsimp only
      simp only [decide_eq_false_iff_not]
      exact not_le.mpr hage
  · intro oldest holdest hage
    unfold ShouldProcessDigest
    by_cases hq : queue.length = 0
    · exfalso
      have hnil : queue = [] := List.length_eq_zero.mp hq
      rw [hnil] at holdest
      simp [GetOldestPending] at holdest
    · rw [if_neg hq, holdest]
      dsimp only
      simp only [decide_eq_true_eq]
      exact hage
  · intro hflush hsend
    have hq : queue.length ≠ 0 := by
      intro h0
      rw [ShouldProcessDigest] at hflush
      simp [h0] at hflush
    have hne := groupNotifications_groups_nonempty queue
    have hpg := processGroups_all_ok notifiers parseDate now hsend
      (groupNotifications queue) hne
    rcases hres : processGroups notifiers parseDate now (groupNotifications queue)
      with ⟨sent, err⟩
    rw [hres] at hpg
    obtain ⟨herr, hlen⟩ := hpg
    simp only at herr
    subst herr
    unfold ProcessDigest
    rw [if_neg hq, hres]
    refine ⟨rfl, rfl, ?_⟩
    simpa [groupNotifications] using hlen

/-- C9 sample: a second pending notification at a different priority. -/
def lowNotification : Notification :=
  { quietNotification with priority := "low" }

/-- C9 sample: a medium-priority item queued at time 0. -/
def c9Pending1 : PendingNotification :=
  { notification := quietNotification, queryName := "quiet query",
    priority := "medium", createdAt := 0 }

/-- C9 sample: a low-priority item queued at time 0. -/
def c9Pending2 : PendingNotification :=
  { notification := lowNotification, queryName := "quiet query",
    priority := "low", createdAt := 0 }

/-- Witness for C9: a two-priority queue aged 100 (< 4h) is not flushed;
aged 20000 (≥ 4h = 14400) it is flushed — no error, empty queue afterward,
and one digest per priority group (two groups). -/
theorem digest_flush_threshold_spec_witness :
    (ShouldProcessDigest [c9Pending1, c9Pending2] 14400 100 = false) ∧
    (ShouldProcessDigest [c9Pending1, c9Pending2] 14400 20000 = true) ∧
    ((ProcessDigest [] (fun _ => none) 20000 [c9Pending1, c9Pending2]).2.2 = none ∧
     (ProcessDigest [] (fun _ => none) 20000 [c9Pending1, c9Pending2]).2.1 = [] ∧
     (ProcessDigest [] (fun _ => none) 20000 [c9Pending1, c9Pending2]).1.length =
       (distinctKeys ([c9Pending1, c9Pending2].map groupKey)).length) := by
  refine ⟨?_, ?_, ?_⟩
  · exact (digest_flush_threshold_spec [c9Pending1, c9Pending2] 14400 100 []
      (fun _ => none)).2.1 0 rfl (by norm_num)
  · exact (digest_flush_threshold_spec [c9Pending1, c9Pending2] 14400 20000 []
      (fun _ => none)).2.2.1 0 rfl (by norm_num)
  · exact (digest_flush_threshold_spec [c9Pending1, c9Pending2] 14400 20000 []
      (fun _ => none)).2.2.2
      ((digest_flush_threshold_spec [c9Pending1, c9Pending2] 14400 20000 []
        (fun _ => none)).2.2.1 0 rfl (by norm_num))
      (by simp)
